import Mathlib

/-!
Shallow embedding of `geo_me.py` (repository `geome`).

The script pipeline is: exiftool metadata extraction → coordinate signing →
reverse geocoding → destination path/filename construction → file move.
External effects (the `exiftool` subprocess, the Nominatim reverse-geocoding
service, filesystem failures) are modelled by an explicit environment `Env`;
the filesystem itself is modelled by an explicit state `FS` mapping file paths
to byte sizes and recording existing directories.  Python exceptions are
modelled by the error type `PyError` threaded through `Except`.
-/

/-- Python exceptions that can escape the functions of `geo_me.py`.
`noGPSData` models `NoGPSDataException` (the only exception class the script
defines and the only one it ever catches); `indexError` and `keyError` model
the built-in `IndexError`/`KeyError`; `geocodeError` models any exception
raised by the geopy `Nominatim` client; `osError` models filesystem errors
raised by `Path.mkdir`, `Path.stat` or `shutil.move`. -/
inductive PyError where
  | indexError : PyError
  | keyError : String → PyError
  | noGPSData : String → PyError
  | geocodeError : PyError
  | osError : PyError
deriving DecidableEq

/-- The logging calls of `geo_me.py` that the claims talk about, as abstract
log records (the format strings stay in the source; each constructor carries
the data the corresponding `logging` call interpolates). -/
inductive LogMsg where
  | processing : String → LogMsg
  | notPossible : String → String → LogMsg
  | duplicate : String → Nat → LogMsg
  | conflict : String → String → LogMsg
  | alreadyAtDestination : LogMsg
deriving DecidableEq

/-- Filesystem state: a finite map from file path to byte size (as an
association list with at most one entry per path) plus the set of directory
paths known to exist.  Directories are only ever added, matching the spec. -/
structure FS where
  files : List (String × Nat)
  dirs : List String
deriving DecidableEq

/-- External world: the raw output lines of `exiftool` per file path (or a
`CalledProcessError`, modelled as `Except.error ()`), the reverse-geocoding
service response per query string (the `raw` address mapping on success, any
geopy failure as `Except.error ()`), and the set of paths on which filesystem
operations (`mkdir`, `shutil.move`) raise an `OSError`. -/
structure Env where
  exiftool : String → Except Unit (List String)
  reverse : String → Except Unit (List (String × String))
  denied : List String

deriving instance DecidableEq for Except

/-! ### Python primitives used by the script, modelled on `List Char` -/

/-- Python `str.split()` (no argument): split on runs of whitespace, dropping
empty pieces.  `acc` is the current word, reversed. -/
def pySplitAux : List Char → List Char → List (List Char)
  | [], acc => if acc.isEmpty then [] else [acc.reverse]
  | c :: cs, acc =>
    if c.isWhitespace then
      if acc.isEmpty then pySplitAux cs [] else acc.reverse :: pySplitAux cs []
    else pySplitAux cs (c :: acc)

/-- Python `s.split()` on a string. -/
def pySplit (s : String) : List String :=
  (pySplitAux s.data []).map (fun w => String.mk w)

/-- Split a character list at the first occurrence of `sep`: Python
`s.split(sep, 1)` returns two pieces when `sep` occurs, and `none` here
models the one-element result when it does not. -/
def splitFirst (sep : Char) : List Char → Option (List Char × List Char)
  | [] => none
  | c :: cs =>
    if c = sep then some ([], cs)
    else
      match splitFirst sep cs with
      | none => none
      | some (l, r) => some (c :: l, r)

/-- Drop leading whitespace characters. -/
def dropWs : List Char → List Char
  | [] => []
  | c :: cs => if c.isWhitespace then dropWs cs else c :: cs

/-- Python `str.strip()`: remove leading and trailing whitespace. -/
def pyStrip (s : String) : String :=
  String.mk ((dropWs (dropWs s.data).reverse).reverse)

/-- Python dict assignment `m[k] = v`: overwrite the value when the key is
present, otherwise append the pair (dicts are insertion ordered). -/
def pyDictInsert (m : List (String × String)) (k v : String) : List (String × String) :=
  if m.any (fun e => e.1 == k) then
    m.map (fun e => if e.1 = k then (k, v) else e)
  else m ++ [(k, v)]

/-- Python substring containment `sub in s`, on character lists. -/
def listContains (sub : List Char) : List Char → Bool
  | [] => sub.isEmpty
  | c :: cs => List.isPrefixOf sub (c :: cs) || listContains sub cs

/-- Python `sub in s` on strings. -/
def pyIn (sub s : String) : Bool := listContains sub.data s.data

/-- Python `s.replace(old, new)` for single-character pattern and
replacement: every occurrence of `old` is replaced. -/
def pyReplaceChar (s : String) (old new : Char) : String :=
  String.mk (s.data.map (fun c => if c = old then new else c))

/-- `pathlib.Path(root, sub)` as a string join with `/` (the script only ever
joins with relative second components). -/
def pathJoin (root sub : String) : String :=
  if sub = "" then root else root ++ "/" ++ sub

/-- The components of a path, used to model `Path.relative_to`. -/
def splitSlashAux : List Char → List Char → List (List Char)
  | [], acc => [acc.reverse]
  | c :: cs, acc =>
    if c = '/' then acc.reverse :: splitSlashAux cs []
    else splitSlashAux cs (c :: acc)

/-- Non-empty `/`-separated components of a path string. -/
def pathParts (p : String) : List String :=
  ((splitSlashAux p.data []).filter (fun w => !w.isEmpty)).map (fun w => String.mk w)

/-- `file.relative_to(Path(destination))` succeeds (does not raise
`ValueError`) exactly when the destination's components are a prefix of the
file's components. -/
def isBeneath (file destination : String) : Bool :=
  List.isPrefixOf (pathParts destination) (pathParts file)

/-! ### The functions of `geo_me.py` -/

/-- `FILENAME_CHOICES` (geo_me.py lines 14-16). -/
def FILENAME_CHOICES : List String := ["date", "date+location"]

/-- `GEODATA_KEYWORDS` (geo_me.py lines 18-24). -/
def GEODATA_KEYWORDS : List String :=
  ["country", "state", "state_district", "city", "town", "suburb"]

/-- The parsing loop of `get_exif_from_file` (lines 48-51): each line is
split on the first colon, the key is the stripped left part, the value is the
right part with its first character dropped (`_[1][1:]`).  A line without a
colon makes `_[1]` raise `IndexError`. -/
def parseExifLines : List String → List (String × String) →
    Except PyError (List (String × String))
  | [], m => .ok m
  | x :: rest, m =>
    match splitFirst ':' x.data with
    | none => .error .indexError
    | some (l, r) =>
        parseExifLines rest (pyDictInsert m (pyStrip (String.mk l)) (String.mk (r.drop 1)))

/-- `get_exif_from_file` (lines 41-53): run exiftool on the file; a
`CalledProcessError` is converted to `NoGPSDataException("exif failed to grab
metadata")`; otherwise the output lines are parsed into a dict. -/
def get_exif_from_file (env : Env) (file : String) :
    Except PyError (List (String × String)) :=
  match env.exiftool file with
  | .error _ => .error (.noGPSData "exif failed to grab metadata")
  | .ok raw => parseExifLines raw []

/-- `create_geo_folder` (lines 56-60): `Path(root, '/'.join(geodata))` is
created with `parents=True, exist_ok=True` and returned.  An `OSError` from
`mkdir` (permissions etc.) is modelled by membership in `env.denied`. -/
def create_geo_folder (env : Env) (fs : FS) (root : String) (geodata : List String) :
    Except PyError (String × FS) :=
  let path := pathJoin root (String.intercalate "/" geodata)
  if path ∈ env.denied then .error .osError
  else .ok (path, { fs with dirs := path :: fs.dirs })

/-- `get_signed_coordinate_element` (lines 63-68): whitespace-split the raw
coordinate; `element[1]` raises `IndexError` when there is no second token;
`S`/`W` as second token prefixes a minus sign, anything else returns the
first token unchanged. -/
def get_signed_coordinate_element (element : String) : Except PyError String :=
  match pySplit element with
  | e0 :: e1 :: _ =>
    if e1 = "S" ∨ e1 = "W" then .ok ("-" ++ e0) else .ok e0
  | _ => .error .indexError

/-- `get_geodata_from_geolocator` (lines 71-79): iterate `GEODATA_KEYWORDS`
in order, appending the value of each keyword present in the address mapping;
the `try/except: pass` skips absent keywords. -/
def get_geodata_from_geolocator (location : List (String × String)) : List String :=
  GEODATA_KEYWORDS.filterMap (fun geo_key => location.lookup geo_key)

/-- `get_geodata_from_gps_cordinates` (lines 81-89): query the geocoder with
`"<latitude>, <longitude>"`; any geopy failure propagates (modelled as
`geocodeError`); on success the `address` mapping is reduced. -/
def get_geodata_from_gps_cordinates (env : Env) (latitude longitude : String) :
    Except PyError (List String) :=
  let coordinates := latitude ++ ", " ++ longitude
  match env.reverse coordinates with
  | .error _ => .error .geocodeError
  | .ok location => .ok (get_geodata_from_geolocator location)

/-- `get_geodata_from_exif` (lines 92-102): look up `GPS Latitude` and
`GPS Longitude` and sign them; a `KeyError` (missing field) is converted to
`NoGPSDataException`, while an `IndexError` from the signing helper is not
caught; after signing, if either value equals the literal `"0.00000000"` a
`NoGPSDataException` is raised; otherwise the coordinates are geocoded. -/
def get_geodata_from_exif (env : Env) (exif : List (String × String)) :
    Except PyError (List String) :=
  match exif.lookup "GPS Latitude" with
  | none => .error (.noGPSData "No valids GPS stored but some extif is present. Should check this")
  | some rawLat =>
    match get_signed_coordinate_element rawLat with
    | .error e => .error e
    | .ok latitude =>
      match exif.lookup "GPS Longitude" with
      | none => .error (.noGPSData "No valids GPS stored but some extif is present. Should check this")
      | some rawLon =>
        match get_signed_coordinate_element rawLon with
        | .error e => .error e
        | .ok longitude =>
          if latitude = "0.00000000" ∨ longitude = "0.00000000" then
            .error (.noGPSData "No valid GPS stored (no fix, really?)")
          else
            get_geodata_from_gps_cordinates env latitude longitude

/-- `get_filename_from_exif` (lines 105-123): the extension comes from
`File Type Extension` (`KeyError` when absent); the timestamp from
`Media Create Date`, falling back to `Create Date` (`KeyError` when both are
absent); colons in the timestamp become underscores; the timestamp component
is included when the mode string contains `"date"`, the space-joined address
when it contains `"location"`; the result is `"<filename>.<extension>"`. -/
def get_filename_from_exif (exif : List (String × String)) (format : String)
    (geodata : List String) : Except PyError String :=
  match exif.lookup "File Type Extension" with
  | none => .error (.keyError "File Type Extension")
  | some extension =>
    let geodataStr := String.intercalate " " geodata
    match (match exif.lookup "Media Create Date" with
           | some d => some d
           | none => exif.lookup "Create Date") with
    | none => .error (.keyError "Create Date")
    | some str_date =>
      let formatted_date := pyReplaceChar str_date ':' '_'
      let fn1 := if pyIn "date" format then formatted_date else ""
      let fn2 := if pyIn "location" format then fn1 ++ geodataStr else fn1
      .ok (fn2 ++ "." ++ extension)

/-- `reallocate_original_file_to_destination` (lines 126-136): when a file
already exists at `path / filename` the source is not moved — equal sizes log
the duplicate message, different sizes the conflict message; otherwise the
source is moved to the target.  `stat` on a missing source and `shutil.move`
failures raise `OSError`. -/
def reallocate_original_file_to_destination (env : Env) (fs : FS)
    (origin path filename : String) : Except PyError (FS × List LogMsg) :=
  let new_file_path := pathJoin path filename
  match fs.files.lookup new_file_path with
  | some newSize =>
    match fs.files.lookup origin with
    | none => .error .osError
    | some originSize =>
      if originSize = newSize then .ok (fs, [.duplicate origin newSize])
      else .ok (fs, [.conflict origin new_file_path])
  | none =>
    match fs.files.lookup origin with
    | none => .error .osError
    | some originSize =>
      if origin ∈ env.denied ∨ new_file_path ∈ env.denied then .error .osError
      else
        .ok ({ fs with
                files := (fs.files.filter (fun e => !(e.1 == origin))) ++
                         [(new_file_path, originSize)] },
             [])

/-- `geolocate` (lines 139-151): the `try` block covers exactly
`get_exif_from_file` and `get_geodata_from_exif` and catches exactly
`NoGPSDataException` (logging the file and returning); every other error, and
every error of the later stages (`create_geo_folder`,
`get_filename_from_exif`, `reallocate_original_file_to_destination`),
propagates to the caller. -/
def geolocate (env : Env) (fs : FS) (file destination format : String) :
    Except PyError (FS × List LogMsg) :=
  let stages : Except PyError (List (String × String) × List String) :=
    match get_exif_from_file env file with
    | .error e => .error e
    | .ok exif =>
      match get_geodata_from_exif env exif with
      | .error e => .error e
      | .ok geodata => .ok (exif, geodata)
  match stages with
  | .error (.noGPSData m) => .ok (fs, [.processing file, .notPossible file m])
  | .error e => .error e
  | .ok (exif, geodata) =>
    match create_geo_folder env fs destination geodata with
    | .error e => .error e
    | .ok (path, fs1) =>
      match get_filename_from_exif exif format geodata with
      | .error e => .error e
      | .ok filename =>
        match reallocate_original_file_to_destination env fs1 file path filename with
        | .error e => .error e
        | .ok (fs2, logs) => .ok (fs2, .processing file :: logs)

/-- The per-file loop of `main` (lines 157-167): directories are skipped;
a file lying beneath the destination root only logs an error (the truthy
`relative_to` branch); otherwise `geolocate` runs inside the `except
ValueError` handler, and any exception it raises propagates out of `main`,
aborting the remaining files. -/
def processFiles (env : Env) (destination format : String) :
    List String → FS → Except PyError (FS × List LogMsg)
  | [], fs => .ok (fs, [])
  | file :: rest, fs =>
    if file ∈ fs.dirs then processFiles env destination format rest fs
    else if isBeneath file destination then
      match processFiles env destination format rest fs with
      | .error e => .error e
      | .ok (fs1, logs) => .ok (fs1, .alreadyAtDestination :: logs)
    else
      match geolocate env fs file destination format with
      | .error e => .error e
      | .ok (fs1, logs) =>
        match processFiles env destination format rest fs1 with
        | .error e => .error e
        | .ok (fs2, logs2) => .ok (fs2, logs ++ logs2)

/-! ### Helper lemmas -/

/-- Looking up the key that heads an association list. -/
theorem lookup_cons_self {β : Type} (a : String) (b : β) (l : List (String × β)) :
    List.lookup a ((a, b) :: l) = some b := by
  simp [List.lookup]

/-- Looking up a key different from the head key skips the head. -/
theorem lookup_cons_ne {β : Type} (k a : String) (b : β) (l : List (String × β)) (h : k ≠ a) :
    List.lookup k ((a, b) :: l) = List.lookup k l := by
  have hb : (k == a) = false := beq_eq_false_iff_ne.mpr h
  simp [List.lookup, hb]

/-- A lookup that misses the left list continues in the right one. -/
theorem lookup_append_of_none {β : Type} (k : String) (l₁ l₂ : List (String × β))
    (h : List.lookup k l₁ = none) : List.lookup k (l₁ ++ l₂) = List.lookup k l₂ := by
  induction l₁ with
  | nil => rfl
  | cons x t ih =>
    rcases x with ⟨a, b⟩
    rw [List.cons_append]
    by_cases hk : k = a
    · subst hk; rw [lookup_cons_self] at h; exact absurd h (by simp)
    · rw [lookup_cons_ne _ _ _ _ hk] at h
      rw [lookup_cons_ne _ _ _ _ hk]
      exact ih h

/-- Filtering away every entry with key `k` makes lookups of `k` miss. -/
theorem lookup_filter_key_ne {β : Type} (k : String) (l : List (String × β)) :
    List.lookup k (l.filter (fun e => !(e.1 == k))) = none := by
  induction l with
  | nil => rfl
  | cons x t ih =>
    rcases x with ⟨a, b⟩
    by_cases hk : a = k
    · subst hk
      simpa using ih
    · have hb : (a == k) = false := beq_eq_false_iff_ne.mpr hk
      have hne : k ≠ a := fun he => hk he.symm
      rw [List.filter_cons, if_pos (by simp [hb])]
      rw [lookup_cons_ne _ _ _ _ hne]
      exact ih

/-- A lookup that misses a list also misses any of its sublists obtained by
`filter`. -/
theorem lookup_filter_of_none {β : Type} (k : String) (p : String × β → Bool)
    (l : List (String × β)) (h : List.lookup k l = none) :
    List.lookup k (l.filter p) = none := by
  induction l with
  | nil => rfl
  | cons x t ih =>
    rcases x with ⟨a, b⟩
    by_cases hk : k = a
    · subst hk; rw [lookup_cons_self] at h; exact absurd h (by simp)
    · rw [lookup_cons_ne _ _ _ _ hk] at h
      rw [List.filter_cons]
      by_cases hp : p (a, b) = true
      · rw [if_pos hp, lookup_cons_ne _ _ _ _ hk]
        exact ih h
      · rw [if_neg hp]
        exact ih h

/-- Association-list lookup only depends on the underlying finite map: two
permuted lists with duplicate-free keys give the same lookups. -/
theorem lookup_perm {β : Type} {l₁ l₂ : List (String × β)} (h : l₁.Perm l₂)
    (nd : (l₁.map Prod.fst).Nodup) (k : String) :
    List.lookup k l₁ = List.lookup k l₂ := by
  induction h with
  | nil => rfl
  | cons x h ih =>
    rcases x with ⟨a, b⟩
    simp only [List.map_cons, List.nodup_cons] at nd
    by_cases hk : k = a
    · subst hk; rw [lookup_cons_self, lookup_cons_self]
    · rw [lookup_cons_ne _ _ _ _ hk, lookup_cons_ne _ _ _ _ hk]
      exact ih nd.2
  | swap x y l =>
    rcases x with ⟨a, b⟩
    rcases y with ⟨c, d⟩
    simp only [List.map_cons, List.nodup_cons, List.mem_cons] at nd
    have hca : c ≠ a := fun he => nd.1 (Or.inl he)
    by_cases hk : k = c
    · subst hk
      rw [lookup_cons_self, lookup_cons_ne _ _ _ _ hca, lookup_cons_self]
    · by_cases hk2 : k = a
      · subst hk2
        rw [lookup_cons_ne _ _ _ _ hk, lookup_cons_self, lookup_cons_self]
      · rw [lookup_cons_ne _ _ _ _ hk, lookup_cons_ne _ _ _ _ hk2,
          lookup_cons_ne _ _ _ _ hk2, lookup_cons_ne _ _ _ _ hk]
  | trans h₁ h₂ ih₁ ih₂ =>
    have nd₂ := ((h₁.map Prod.fst).nodup_iff).mp nd
    exact (ih₁ nd).trans (ih₂ nd₂)

/-- Prepending an entry whose key is outside the queried keyword list leaves
the keyword sweep unchanged. -/
theorem filterMap_lookup_cons_of_not_mem {β : Type} (k : String) (v : β)
    (loc : List (String × β)) (ks : List String) (hk : k ∉ ks) :
    ks.filterMap (fun q => List.lookup q ((k, v) :: loc)) =
      ks.filterMap (fun q => List.lookup q loc) := by
  induction ks with
  | nil => rfl
  | cons q t ih =>
    have hq : q ≠ k := fun he => hk (he ▸ List.mem_cons_self q t)
    have ht : k ∉ t := fun hm => hk (List.mem_cons_of_mem q hm)
    simp only [List.filterMap_cons]
    rw [lookup_cons_ne _ _ _ _ hq, ih ht]

/-- Splitting a whitespace-free word followed by more input accumulates the
word. -/
theorem pySplitAux_word (l : List Char) (rest : List Char) (acc : List Char)
    (h : ∀ c ∈ l, c.isWhitespace = false) :
    pySplitAux (l ++ rest) acc = pySplitAux rest (l.reverse ++ acc) := by
  induction l generalizing acc with
  | nil => simp
  | cons c cs ih =>
    have hc : c.isWhitespace = false := h c (List.mem_cons_self c cs)
    have hcs : ∀ a ∈ cs, a.isWhitespace = false := fun a ha => h a (List.mem_cons_of_mem c ha)
    rw [List.cons_append, pySplitAux, if_neg (by simp [hc]), ih _ hcs]
    simp

/-- Python-splitting `"<word> <letter>"` yields exactly the word and the
letter. -/
theorem pySplit_word_letter (mag : String) (x : Char) (h1 : mag.data ≠ [])
    (h2 : ∀ c ∈ mag.data, c.isWhitespace = false) (hx : x.isWhitespace = false) :
    pySplit (mag ++ String.mk [' ', x]) = [mag, String.mk [x]] := by
  rw [pySplit, String.data_append]
  rw [show (String.mk [' ', x]).data = [' ', x] from rfl]
  rw [pySplitAux_word mag.data [' ', x] [] h2]
  rw [List.append_nil]
  rw [pySplitAux, if_pos (by decide)]
  have hne : mag.data.reverse.isEmpty = false := by
    rcases hd : mag.data with _ | ⟨c, cs⟩
    · exact absurd hd h1
    · simp
  rw [if_neg (by simp [hne])]
  rw [pySplitAux, if_neg (by simp [hx]), pySplitAux]
  simp

/-! ### Claim theorems -/

/-- C2 counterexample: normalizing the bare magnitude `"40.12345678"` (no
hemisphere letter at all) does not return the magnitude unchanged — the
access `element[1]` raises `IndexError` instead. -/
theorem bare_magnitude_counterexample :
    get_signed_coordinate_element "40.12345678" = .error .indexError ∧
    get_signed_coordinate_element "40.12345678" ≠ .ok "40.12345678" := by
  exact ⟨by decide, by decide⟩

/-- C2 (amended): for a raw coordinate string whose whitespace-split form has
a second token that is neither `S` nor `W`, normalization returns the first
token unchanged (the same result as for the letters `N` or `E`); but a string
that splits into fewer than two tokens (in particular a bare magnitude)
raises `IndexError` rather than returning the magnitude. -/
theorem unrecognized_letter_kept_positive (element : String) :
    (∀ (e0 e1 : String) (rest : List String), pySplit element = e0 :: e1 :: rest →
        e1 ≠ "S" → e1 ≠ "W" → get_signed_coordinate_element element = .ok e0) ∧
    (∀ w : String, pySplit element = [w] →
        get_signed_coordinate_element element = .error .indexError) ∧
    (pySplit element = [] →
        get_signed_coordinate_element element = .error .indexError) := by
  refine ⟨fun e0 e1 rest h hS hW => ?_, fun w h => ?_, fun h => ?_⟩
  · simp [get_signed_coordinate_element, h, hS, hW]
  · simp [get_signed_coordinate_element, h]
  · simp [get_signed_coordinate_element, h]

/-- C2 witness: the bare magnitude and an unrecognized second token, on
concrete inputs. -/
theorem unrecognized_letter_kept_positive_witness :
    get_signed_coordinate_element "40.12345678 X" = .ok "40.12345678" ∧
    get_signed_coordinate_element "40.12345678" = .error .indexError := by
  constructor
  · exact (unrecognized_letter_kept_positive "40.12345678 X").1 "40.12345678" "X" []
      (by decide) (by decide) (by decide)
  · exact (unrecognized_letter_kept_positive "40.12345678").2.1 "40.12345678" (by decide)

/-- C8: for every whitespace-free non-empty magnitude string, normalizing
`"<mag> S"` or `"<mag> W"` yields `"-<mag>"`, and normalizing `"<mag> N"` or
`"<mag> E"` yields `"<mag>"` unchanged. -/
theorem hemisphere_sign_convention (mag : String) (h1 : mag.data ≠ [])
    (h2 : ∀ c ∈ mag.data, c.isWhitespace = false) :
    get_signed_coordinate_element (mag ++ " S") = .ok ("-" ++ mag) ∧
    get_signed_coordinate_element (mag ++ " W") = .ok ("-" ++ mag) ∧
    get_signed_coordinate_element (mag ++ " N") = .ok mag ∧
    get_signed_coordinate_element (mag ++ " E") = .ok mag := by
  have hS := pySplit_word_letter mag 'S' h1 h2 (by decide)
  have hW := pySplit_word_letter mag 'W' h1 h2 (by decide)
  have hN := pySplit_word_letter mag 'N' h1 h2 (by decide)
  have hE := pySplit_word_letter mag 'E' h1 h2 (by decide)
  rw [show String.mk [' ', 'S'] = " S" from rfl] at hS
  rw [show String.mk [' ', 'W'] = " W" from rfl] at hW
  rw [show String.mk [' ', 'N'] = " N" from rfl] at hN
  rw [show String.mk [' ', 'E'] = " E" from rfl] at hE
  refine ⟨?_, ?_, ?_, ?_⟩
  · simp [get_signed_coordinate_element, hS]
  · simp [get_signed_coordinate_element, hW]
  · have : (String.mk ['N'] : String) ≠ "S" ∧ (String.mk ['N'] : String) ≠ "W" := by decide
    simp [get_signed_coordinate_element, hN, this.1, this.2]
  · have : (String.mk ['E'] : String) ≠ "S" ∧ (String.mk ['E'] : String) ≠ "W" := by decide
    simp [get_signed_coordinate_element, hE, this.1, this.2]

/-- C8 witness: the four hemisphere letters on a concrete magnitude. -/
theorem hemisphere_sign_convention_witness :
    get_signed_coordinate_element ("40.12345678" ++ " S") = .ok ("-" ++ "40.12345678") ∧
    get_signed_coordinate_element ("40.12345678" ++ " W") = .ok ("-" ++ "40.12345678") ∧
    get_signed_coordinate_element ("40.12345678" ++ " N") = .ok "40.12345678" ∧
    get_signed_coordinate_element ("40.12345678" ++ " E") = .ok "40.12345678" :=
  hemisphere_sign_convention "40.12345678" (by decide) (by decide)

/-- C5: the GeoAddress produced from an address response is the values of the
six recognized keys in the fixed order of `GEODATA_KEYWORDS`, independent of
the order the keys appear in the response (permuting a duplicate-free-key
response leaves the result unchanged), with absent keys silently skipped and
unrecognized keys ignored; in particular a response with `state` before
`country` still yields the country first. -/
theorem geoaddress_fixed_order :
    (∀ l₁ l₂ : List (String × String), l₁.Perm l₂ → (l₁.map Prod.fst).Nodup →
        get_geodata_from_geolocator l₁ = get_geodata_from_geolocator l₂) ∧
    (∀ (k v : String) (loc : List (String × String)), k ∉ GEODATA_KEYWORDS →
        get_geodata_from_geolocator ((k, v) :: loc) = get_geodata_from_geolocator loc) ∧
    get_geodata_from_geolocator [("state", "X"), ("country", "Y")] = ["Y", "X"] ∧
    get_geodata_from_geolocator [("country", "Y"), ("state", "X")] = ["Y", "X"] ∧
    get_geodata_from_geolocator [("state", "X"), ("country", "Y"), ("zebra", "Z")]
      = ["Y", "X"] := by
  refine ⟨fun l₁ l₂ hperm hnd => ?_, fun k v loc hk => ?_, by decide, by decide, by decide⟩
  · rw [get_geodata_from_geolocator, get_geodata_from_geolocator]
    congr 1
    funext q
    exact lookup_perm hperm hnd q
  · exact filterMap_lookup_cons_of_not_mem k v loc GEODATA_KEYWORDS hk

/-- C5 witness: permutation independence and unknown-key irrelevance on the
concrete two-key response of the claim. -/
theorem geoaddress_fixed_order_witness :
    get_geodata_from_geolocator [("state", "X"), ("country", "Y")] =
      get_geodata_from_geolocator [("country", "Y"), ("state", "X")] ∧
    get_geodata_from_geolocator [("zebra", "Z"), ("state", "X"), ("country", "Y")] =
      get_geodata_from_geolocator [("state", "X"), ("country", "Y")] := by
  constructor
  · exact geoaddress_fixed_order.1 [("state", "X"), ("country", "Y")]
      [("country", "Y"), ("state", "X")] (by decide) (by decide)
  · exact geoaddress_fixed_order.2.1 "zebra" "Z" [("state", "X"), ("country", "Y")] (by decide)

/-- C6: filename construction replaces every colon of the timestamp with an
underscore and appends the extension after a dot: for any metadata with the
required fields, mode `"date"` yields `"<ts-with-underscores>.<ext>"` and
mode `"date+location"` appends the space-joined address directly after the
date with no separator; on the claim's concrete inputs the results are
`"2020_01_02 10_00_00.jpg"` and `"2020_01_02 10_00_00Spain Madrid.jpg"`. -/
theorem filename_construction (exif : List (String × String)) (ts ext : String)
    (gd : List String)
    (h1 : exif.lookup "File Type Extension" = some ext)
    (h2 : exif.lookup "Media Create Date" = some ts) :
    (':' ∉ (pyReplaceChar ts ':' '_').data) ∧
    get_filename_from_exif exif "date" gd = .ok (pyReplaceChar ts ':' '_' ++ "." ++ ext) ∧
    get_filename_from_exif exif "date+location" gd =
      .ok (pyReplaceChar ts ':' '_' ++ String.intercalate " " gd ++ "." ++ ext) ∧
    get_filename_from_exif
      [("File Type Extension", "jpg"), ("Media Create Date", "2020:01:02 10:00:00")]
      "date" [] = .ok "2020_01_02 10_00_00.jpg" ∧
    get_filename_from_exif
      [("File Type Extension", "jpg"), ("Media Create Date", "2020:01:02 10:00:00")]
      "date+location" ["Spain", "Madrid"] = .ok "2020_01_02 10_00_00Spain Madrid.jpg" := by
  refine ⟨?_, ?_, ?_, by decide, by decide⟩
  · intro hmem
    rw [pyReplaceChar] at hmem
    rw [show (String.mk (ts.data.map (fun c => if c = ':' then '_' else c))).data
          = ts.data.map (fun c => if c = ':' then '_' else c) from rfl] at hmem
    rcases List.mem_map.mp hmem with ⟨c, _, hc⟩
    by_cases h : c = ':'
    · rw [if_pos h] at hc
      exact absurd hc (by decide)
    · rw [if_neg h] at hc
      exact h hc
  · have hd : pyIn "date" "date" = true := by decide
    have hl : pyIn "location" "date" = false := by decide
    simp [get_filename_from_exif, h1, h2, hd, hl]
  · have hd : pyIn "date" "date+location" = true := by decide
    have hl : pyIn "location" "date+location" = true := by decide
    simp [get_filename_from_exif, h1, h2, hd, hl]

/-- C6 witness: the claim's two concrete filename constructions, obtained
from the general statement at the concrete metadata. -/
theorem filename_construction_witness :
    get_filename_from_exif
      [("File Type Extension", "jpg"), ("Media Create Date", "2020:01:02 10:00:00")]
      "date" [] = .ok "2020_01_02 10_00_00.jpg" ∧
    get_filename_from_exif
      [("File Type Extension", "jpg"), ("Media Create Date", "2020:01:02 10:00:00")]
      "date+location" ["Spain", "Madrid"] = .ok "2020_01_02 10_00_00Spain Madrid.jpg" := by
  have h := filename_construction
    [("File Type Extension", "jpg"), ("Media Create Date", "2020:01:02 10:00:00")]
    "2020:01:02 10:00:00" "jpg" [] (by decide) (by decide)
  exact ⟨h.2.2.2.1, h.2.2.2.2⟩

/-- C7: for every mode string, the filename builder includes the timestamp
component exactly when the mode contains the substring `"date"` and the
location component exactly when it contains the substring `"location"`; no
mode string is rejected by the builder itself (the result is always `ok`
given the required metadata fields), as the concrete non-sanctioned modes
`"some dated relocation"` (both components) and `"size"` (neither) show. -/
theorem mode_substring_matching (exif : List (String × String)) (ts ext fmt : String)
    (gd : List String)
    (h1 : exif.lookup "File Type Extension" = some ext)
    (h2 : exif.lookup "Media Create Date" = some ts) :
    get_filename_from_exif exif fmt gd =
      .ok (((if pyIn "date" fmt then pyReplaceChar ts ':' '_' else "") ++
            (if pyIn "location" fmt then String.intercalate " " gd else "")) ++ "." ++ ext) ∧
    get_filename_from_exif
      [("File Type Extension", "jpg"), ("Media Create Date", "2020:01:02 10:00:00")]
      "some dated relocation" ["Spain"] = .ok "2020_01_02 10_00_00Spain.jpg" ∧
    get_filename_from_exif
      [("File Type Extension", "jpg"), ("Media Create Date", "2020:01:02 10:00:00")]
      "size" [] = .ok ".jpg" := by
  refine ⟨?_, by decide, by decide⟩
  cases hd : pyIn "date" fmt <;> cases hl : pyIn "location" fmt <;>
    simp [get_filename_from_exif, h1, h2, hd, hl]

/-- C7 witness: substring-matched components on concrete metadata with a
non-sanctioned mode string containing both substrings. -/
theorem mode_substring_matching_witness :
    get_filename_from_exif
      [("File Type Extension", "jpg"), ("Media Create Date", "2020:01:02 10:00:00")]
      "datelocation" ["Spain"] =
      .ok (((if pyIn "date" "datelocation" then
               pyReplaceChar "2020:01:02 10:00:00" ':' '_' else "") ++
            (if pyIn "location" "datelocation" then
               String.intercalate " " ["Spain"] else "")) ++ "." ++ "jpg") :=
  (mode_substring_matching
    [("File Type Extension", "jpg"), ("Media Create Date", "2020:01:02 10:00:00")]
    "2020:01:02 10:00:00" "jpg" "datelocation" ["Spain"] (by decide) (by decide)).1

/-- Environment for evaluating the sentinel behavior: the geocoding service
only answers the query built from the signed pair
`"-0.00000000, -0.00000000"`, so a successful address proves that coordinate
extraction reached the reverse-geocoding stage with exactly that query. -/
def envSentinel : Env :=
  { exiftool := fun _ => .error (),
    reverse := fun q =>
      if q = "-0.00000000, -0.00000000" then .ok [("country", "Nowhere")] else .error (),
    denied := [] }

/-- C1 (evaluation at the failing input): with hemisphere letters `S`/`W` the
sentinel magnitude `"0.00000000"` is signed to `"-0.00000000"`, the
membership test `'0.00000000' in (latitude, longitude)` therefore misses it,
and extraction proceeds to the reverse-geocoding stage instead of raising
`NoGPSData`; the same magnitudes with `N`/`E` do raise it.  This contradicts
the claim's "regardless of which hemisphere letters". -/
theorem sentinel_sw_reaches_geocoder :
    get_signed_coordinate_element "0.00000000 S" = .ok "-0.00000000" ∧
    get_signed_coordinate_element "0.00000000 W" = .ok "-0.00000000" ∧
    get_geodata_from_exif envSentinel
      [("GPS Latitude", "0.00000000 S"), ("GPS Longitude", "0.00000000 W")]
      = .ok ["Nowhere"] ∧
    get_geodata_from_exif envSentinel
      [("GPS Latitude", "0.00000000 N"), ("GPS Longitude", "0.00000000 E")]
      = .error (.noGPSData "No valid GPS stored (no fix, really?)") := by
  exact ⟨by decide, by decide, by decide, by decide⟩

/-- C9: a candidate file lying beneath the destination root is only logged
and never handed to `geolocate`: for every environment, processing
`file :: rest` equals processing `rest` from the unchanged filesystem with
only the already-at-destination log line prepended. -/
theorem skip_files_at_destination (env : Env) (destination format file : String)
    (rest : List String) (fs : FS) (hdir : file ∉ fs.dirs)
    (hben : isBeneath file destination = true) :
    processFiles env destination format (file :: rest) fs =
      (processFiles env destination format rest fs).map
        (fun r => (r.1, LogMsg.alreadyAtDestination :: r.2)) := by
  rcases hres : processFiles env destination format rest fs with e | ⟨fs1, logs⟩ <;>
    simp [processFiles, hdir, hben, hres, Except.map]

/-- C9 witness: a concrete file beneath the destination root is skipped with
a single log line while the rest of the batch is processed. -/
theorem skip_files_at_destination_witness :
    processFiles envSentinel "dest" "date" ["dest/Spain/a.jpg"] { files := [], dirs := [] } =
      (processFiles envSentinel "dest" "date" [] { files := [], dirs := [] }).map
        (fun r => (r.1, LogMsg.alreadyAtDestination :: r.2)) :=
  skip_files_at_destination envSentinel "dest" "date" "dest/Spain/a.jpg" []
    { files := [], dirs := [] } (by decide) (by decide)

/-- C3: in the per-file orchestration step, an extraction-tool failure
(`NoGPSDataException("exif failed to grab metadata")`, the script's
rendering of MetadataUnavailable) and a `NoGPSData` failure from the
coordinate stage are both recovered — the file is logged and skipped and
processing continues with the next file — whereas a reverse-geocoding
failure, an `OSError` during directory creation, or any error during the
move stage is not caught at this level and propagates, aborting the
remaining batch. -/
theorem orchestration_error_recovery (env : Env) (fs : FS)
    (file destination format : String) (rest : List String)
    (hdir : file ∉ fs.dirs) (hben : isBeneath file destination = false) :
    (env.exiftool file = .error () →
      geolocate env fs file destination format =
        .ok (fs, [.processing file, .notPossible file "exif failed to grab metadata"]) ∧
      processFiles env destination format (file :: rest) fs =
        (processFiles env destination format rest fs).map
          (fun r => (r.1,
            LogMsg.processing file ::
              LogMsg.notPossible file "exif failed to grab metadata" :: r.2))) ∧
    (∀ (exif : List (String × String)) (m : String),
      get_exif_from_file env file = .ok exif →
      get_geodata_from_exif env exif = .error (.noGPSData m) →
      geolocate env fs file destination format =
        .ok (fs, [.processing file, .notPossible file m]) ∧
      processFiles env destination format (file :: rest) fs =
        (processFiles env destination format rest fs).map
          (fun r => (r.1, LogMsg.processing file :: LogMsg.notPossible file m :: r.2))) ∧
    (∀ exif : List (String × String),
      get_exif_from_file env file = .ok exif →
      get_geodata_from_exif env exif = .error .geocodeError →
      geolocate env fs file destination format = .error .geocodeError ∧
      processFiles env destination format (file :: rest) fs = .error .geocodeError) ∧
    (∀ (exif : List (String × String)) (geodata : List String),
      get_exif_from_file env file = .ok exif →
      get_geodata_from_exif env exif = .ok geodata →
      pathJoin destination (String.intercalate "/" geodata) ∈ env.denied →
      geolocate env fs file destination format = .error .osError ∧
      processFiles env destination format (file :: rest) fs = .error .osError) ∧
    (∀ (exif : List (String × String)) (geodata : List String) (path : String) (fs1 : FS)
        (filename : String) (e : PyError),
      get_exif_from_file env file = .ok exif →
      get_geodata_from_exif env exif = .ok geodata →
      create_geo_folder env fs destination geodata = .ok (path, fs1) →
      get_filename_from_exif exif format geodata = .ok filename →
      reallocate_original_file_to_destination env fs1 file path filename = .error e →
      geolocate env fs file destination format = .error e ∧
      processFiles env destination format (file :: rest) fs = .error e) := by
  refine ⟨fun h => ?_, fun exif m h1 h2 => ?_, fun exif h1 h2 => ?_,
    fun exif geodata h1 h2 hd => ?_, fun exif geodata path fs1 filename e h1 h2 h3 h4 h5 => ?_⟩
  · have hg : geolocate env fs file destination format =
        .ok (fs, [.processing file, .notPossible file "exif failed to grab metadata"]) := by
      simp [geolocate, get_exif_from_file, h]
    refine ⟨hg, ?_⟩
    rcases hres : processFiles env destination format rest fs with e | ⟨fs2, logs⟩ <;>
      simp [processFiles, hdir, hben, hg, hres, Except.map]
  · have hg : geolocate env fs file destination format =
        .ok (fs, [.processing file, .notPossible file m]) := by
      simp [geolocate, h1, h2]
    refine ⟨hg, ?_⟩
    rcases hres : processFiles env destination format rest fs with e | ⟨fs2, logs⟩ <;>
      simp [processFiles, hdir, hben, hg, hres, Except.map]
  · have hg : geolocate env fs file destination format = .error .geocodeError := by
      simp [geolocate, h1, h2]
    exact ⟨hg, by simp [processFiles, hdir, hben, hg]⟩
  · have hg : geolocate env fs file destination format = .error .osError := by
      simp [geolocate, h1, h2, create_geo_folder, hd]
    exact ⟨hg, by simp [processFiles, hdir, hben, hg]⟩
  · have hg : geolocate env fs file destination format = .error e := by
      simp [geolocate, h1, h2, h3, h4, h5]
    exact ⟨hg, by simp [processFiles, hdir, hben, hg]⟩

/-- Concrete filesystem used by the orchestration witnesses: one source file
of five bytes. -/
def fsW : FS := { files := [("f", 5)], dirs := [] }

/-- Exiftool output lacking any GPS field. -/
def envNoGps : Env :=
  { exiftool := fun _ => .ok ["File Type Extension : jpg"],
    reverse := fun _ => .error (), denied := [] }

/-- Valid coordinates but a failing geocoding service. -/
def envGeoFail : Env :=
  { exiftool := fun _ =>
      .ok ["GPS Latitude : 1.00000000 N", "GPS Longitude : 2.00000000 E"],
    reverse := fun _ => .error (), denied := [] }

/-- Valid coordinates and geocoder, but `mkdir` fails on the destination
directory. -/
def envMkdirFail : Env :=
  { exiftool := fun _ =>
      .ok ["GPS Latitude : 1.00000000 N", "GPS Longitude : 2.00000000 E"],
    reverse := fun _ => .ok [("country", "Spain")], denied := ["dest/Spain"] }

/-- Valid full metadata and geocoder, but `shutil.move` fails on the source
path. -/
def envMoveFail : Env :=
  { exiftool := fun _ =>
      .ok ["GPS Latitude : 1.00000000 N", "GPS Longitude : 2.00000000 E",
           "File Type Extension : jpg", "Media Create Date : 2020:01:02 10:00:00"],
    reverse := fun _ => .ok [("country", "Spain")], denied := ["f"] }

/-- C3 witness: all five orchestration scenarios at concrete inputs — the two
recovered failure kinds return `ok` with the skip log, and the geocoding,
mkdir and move failures abort. -/
theorem orchestration_error_recovery_witness :
    (geolocate envSentinel fsW "f" "dest" "date" =
      .ok (fsW, [.processing "f", .notPossible "f" "exif failed to grab metadata"])) ∧
    (geolocate envNoGps fsW "f" "dest" "date" =
      .ok (fsW, [.processing "f",
        .notPossible "f" "No valids GPS stored but some extif is present. Should check this"])) ∧
    (geolocate envGeoFail fsW "f" "dest" "date" = .error .geocodeError ∧
      processFiles envGeoFail "dest" "date" ["f", "g"] fsW = .error .geocodeError) ∧
    (geolocate envMkdirFail fsW "f" "dest" "date" = .error .osError) ∧
    (geolocate envMoveFail fsW "f" "dest" "date" = .error .osError) := by
  refine ⟨?_, ?_, ?_, ?_, ?_⟩
  · exact ((orchestration_error_recovery envSentinel fsW "f" "dest" "date" []
      (by decide) (by decide)).1 rfl).1
  · exact ((orchestration_error_recovery envNoGps fsW "f" "dest" "date" []
      (by decide) (by decide)).2.1 [("File Type Extension", "jpg")]
      "No valids GPS stored but some extif is present. Should check this"
      (by decide) (by decide)).1
  · exact (orchestration_error_recovery envGeoFail fsW "f" "dest" "date" ["g"]
      (by decide) (by decide)).2.2.1
      [("GPS Latitude", "1.00000000 N"), ("GPS Longitude", "2.00000000 E")]
      (by decide) (by decide)
  · exact ((orchestration_error_recovery envMkdirFail fsW "f" "dest" "date" []
      (by decide) (by decide)).2.2.2.1
      [("GPS Latitude", "1.00000000 N"), ("GPS Longitude", "2.00000000 E")] ["Spain"]
      (by decide) (by decide) (by decide)).1
  · exact ((orchestration_error_recovery envMoveFail fsW "f" "dest" "date" []
      (by decide) (by decide)).2.2.2.2
      [("GPS Latitude", "1.00000000 N"), ("GPS Longitude", "2.00000000 E"),
       ("File Type Extension", "jpg"), ("Media Create Date", "2020:01:02 10:00:00")]
      ["Spain"] "dest/Spain" { files := [("f", 5)], dirs := ["dest/Spain"] }
      "2020_01_02 10_00_00.jpg" .osError
      (by decide) (by decide) (by decide) (by decide) (by decide)).1

/-- C4: relocation moves the source iff the target path is free.  When the
target is occupied by an equal-sized file, no move occurs, the filesystem is
unchanged (the source stays at its path) and the duplicate condition is
logged; with a different size, the conflict condition is logged instead,
again without moving.  When the target is free, the source is moved: it no
longer exists at its original path and exists at the target with its size;
and directory creation records the computed destination directory. -/
theorem relocation_collision_policy (env : Env) (fs : FS) (origin path filename : String) :
    (∀ s : Nat, fs.files.lookup (pathJoin path filename) = some s →
      fs.files.lookup origin = some s →
      reallocate_original_file_to_destination env fs origin path filename =
        .ok (fs, [.duplicate origin s])) ∧
    (∀ s₁ s₂ : Nat, fs.files.lookup (pathJoin path filename) = some s₁ →
      fs.files.lookup origin = some s₂ → s₂ ≠ s₁ →
      reallocate_original_file_to_destination env fs origin path filename =
        .ok (fs, [.conflict origin (pathJoin path filename)])) ∧
    (∀ s : Nat, fs.files.lookup (pathJoin path filename) = none →
      fs.files.lookup origin = some s →
      origin ∉ env.denied → pathJoin path filename ∉ env.denied →
      ∃ fs₂ : FS,
        reallocate_original_file_to_destination env fs origin path filename = .ok (fs₂, []) ∧
        fs₂.files.lookup origin = none ∧
        fs₂.files.lookup (pathJoin path filename) = some s ∧
        fs₂.dirs = fs.dirs) ∧
    (∀ (root : String) (geodata : List String),
      pathJoin root (String.intercalate "/" geodata) ∉ env.denied →
      ∃ (p : String) (fs₁ : FS),
        create_geo_folder env fs root geodata = .ok (p, fs₁) ∧ p ∈ fs₁.dirs ∧
        fs₁.files = fs.files) := by
  refine ⟨fun s h1 h2 => ?_, fun s₁ s₂ h1 h2 hne => ?_, fun s h1 h2 hd1 hd2 => ?_,
    fun root geodata hd => ?_⟩
  · simp [reallocate_original_file_to_destination, h1, h2]
  · simp [reallocate_original_file_to_destination, h1, h2, hne]
  · have hne : origin ≠ pathJoin path filename := by
      intro he
      rw [he, h1] at h2
      exact absurd h2 (by simp)
    refine ⟨{ fs with files :=
        (fs.files.filter (fun e => !(e.1 == origin))) ++ [(pathJoin path filename, s)] },
      ?_, ?_, ?_, rfl⟩
    · simp [reallocate_original_file_to_destination, h1, h2, not_or.mpr ⟨hd1, hd2⟩]
    · rw [lookup_append_of_none origin _ _ (lookup_filter_key_ne origin fs.files)]
      rw [lookup_cons_ne _ _ _ _ hne]
      rfl
    · rw [lookup_append_of_none _ _ _
        (lookup_filter_of_none (pathJoin path filename) _ fs.files h1)]
      exact lookup_cons_self _ _ _
  · exact ⟨pathJoin root (String.intercalate "/" geodata),
      { fs with dirs := pathJoin root (String.intercalate "/" geodata) :: fs.dirs },
      by simp [create_geo_folder, hd], List.mem_cons_self _ _, rfl⟩

/-- C4 witness: the duplicate, conflict, free-target and directory-creation
cases on concrete filesystems. -/
theorem relocation_collision_policy_witness :
    (reallocate_original_file_to_destination envSentinel
      { files := [("o", 5), ("d/f", 5)], dirs := [] } "o" "d" "f" =
      .ok ({ files := [("o", 5), ("d/f", 5)], dirs := [] }, [.duplicate "o" 5])) ∧
    (reallocate_original_file_to_destination envSentinel
      { files := [("o", 5), ("d/f", 7)], dirs := [] } "o" "d" "f" =
      .ok ({ files := [("o", 5), ("d/f", 7)], dirs := [] }, [.conflict "o" (pathJoin "d" "f")])) ∧
    (∃ fs₂ : FS,
      reallocate_original_file_to_destination envSentinel
        { files := [("o", 5)], dirs := [] } "o" "d" "f" = .ok (fs₂, []) ∧
      fs₂.files.lookup "o" = none ∧
      fs₂.files.lookup (pathJoin "d" "f") = some 5 ∧
      fs₂.dirs = ({ files := [("o", 5)], dirs := [] } : FS).dirs) ∧
    (∃ (p : String) (fs₁ : FS),
      create_geo_folder envSentinel { files := [("o", 5)], dirs := [] } "dest" ["Spain"] =
        .ok (p, fs₁) ∧ p ∈ fs₁.dirs ∧
      fs₁.files = ({ files := [("o", 5)], dirs := [] } : FS).files) := by
  refine ⟨?_, ?_, ?_, ?_⟩
  · exact (relocation_collision_policy envSentinel
      { files := [("o", 5), ("d/f", 5)], dirs := [] } "o" "d" "f").1 5 (by decide) (by decide)
  · exact (relocation_collision_policy envSentinel
      { files := [("o", 5), ("d/f", 7)], dirs := [] } "o" "d" "f").2.1 7 5
      (by decide) (by decide) (by decide)
  · exact (relocation_collision_policy envSentinel
      { files := [("o", 5)], dirs := [] } "o" "d" "f").2.2.1 5
      (by decide) (by decide) (by decide) (by decide)
  · exact (relocation_collision_policy envSentinel
      { files := [("o", 5)], dirs := [] } "o" "d" "f").2.2.2 "dest" ["Spain"] (by decide)

/-- C10: a metadata mapping lacking `File Type Extension`, or lacking both
`Media Create Date` and `Create Date`, makes filename construction raise
`KeyError`; and because `geolocate` calls the path-building and relocation
stages outside its `try` block (which covers only the extraction and
coordinate stages), this `KeyError` escapes per-file isolation and aborts
the remaining batch. -/
theorem missing_metadata_keyerror_aborts :
    (∀ (exif : List (String × String)) (fmt : String) (gd : List String),
      exif.lookup "File Type Extension" = none →
      get_filename_from_exif exif fmt gd = .error (.keyError "File Type Extension")) ∧
    (∀ (exif : List (String × String)) (fmt ext : String) (gd : List String),
      exif.lookup "File Type Extension" = some ext →
      exif.lookup "Media Create Date" = none →
      exif.lookup "Create Date" = none →
      get_filename_from_exif exif fmt gd = .error (.keyError "Create Date")) ∧
    (∀ (env : Env) (fs : FS) (file destination fmt : String) (rest : List String)
        (exif : List (String × String)) (geodata : List String) (path : String) (fs1 : FS)
        (k : String),
      file ∉ fs.dirs → isBeneath file destination = false →
      get_exif_from_file env file = .ok exif →
      get_geodata_from_exif env exif = .ok geodata →
      create_geo_folder env fs destination geodata = .ok (path, fs1) →
      get_filename_from_exif exif fmt geodata = .error (.keyError k) →
      geolocate env fs file destination fmt = .error (.keyError k) ∧
      processFiles env destination fmt (file :: rest) fs = .error (.keyError k)) := by
  refine ⟨fun exif fmt gd h => ?_, fun exif fmt ext gd h1 h2 h3 => ?_,
    fun env fs file destination fmt rest exif geodata path fs1 k hdir hben h1 h2 h3 h4 => ?_⟩
  · simp [get_filename_from_exif, h]
  · simp [get_filename_from_exif, h1, h2, h3]
  · have hg : geolocate env fs file destination fmt = .error (.keyError k) := by
      simp [geolocate, h1, h2, h3, h4]
    exact ⟨hg, by simp [processFiles, hdir, hben, hg]⟩

/-- Metadata with coordinates but no extension field: the `KeyError` raised
while building the filename escapes the per-file recovery. -/
def envNoExt : Env :=
  { exiftool := fun _ =>
      .ok ["GPS Latitude : 1.00000000 N", "GPS Longitude : 2.00000000 E"],
    reverse := fun _ => .ok [("country", "Spain")], denied := [] }

/-- C10 witness: on concrete metadata without `File Type Extension` the
filename builder raises `KeyError` and the batch aborts before reaching the
second file. -/
theorem missing_metadata_keyerror_aborts_witness :
    get_filename_from_exif
      [("GPS Latitude", "1.00000000 N"), ("GPS Longitude", "2.00000000 E")] "date" ["Spain"]
      = .error (.keyError "File Type Extension") ∧
    get_filename_from_exif [("File Type Extension", "jpg")] "date" []
      = .error (.keyError "Create Date") ∧
    (geolocate envNoExt fsW "f" "dest" "date" = .error (.keyError "File Type Extension") ∧
      processFiles envNoExt "dest" "date" ["f", "g"] fsW =
        .error (.keyError "File Type Extension")) := by
  refine ⟨?_, ?_, ?_⟩
  · exact missing_metadata_keyerror_aborts.1
      [("GPS Latitude", "1.00000000 N"), ("GPS Longitude", "2.00000000 E")] "date" ["Spain"]
      (by decide)
  · exact missing_metadata_keyerror_aborts.2.1 [("File Type Extension", "jpg")] "date" "jpg" []
      (by decide) (by decide) (by decide)
  · exact missing_metadata_keyerror_aborts.2.2 envNoExt fsW "f" "dest" "date" ["g"]
      [("GPS Latitude", "1.00000000 N"), ("GPS Longitude", "2.00000000 E")] ["Spain"]
      "dest/Spain" { files := [("f", 5)], dirs := ["dest/Spain"] } "File Type Extension"
      (by decide) (by decide) (by decide) (by decide) (by decide) (by decide)
